import Mathlib

/-!
# Fire-monitoring backend: shallow embedding and verification

Shallow embedding of the core of the `fire-monitoring-backend` repository
(`server.js`, `telegramService.js` together with the appended WhatsApp
service, and the two-channel legacy server variant), with theorems settling
the specification claims about it.

Conventions of the embedding:
* JavaScript numbers are modelled as `ℚ`; none of the embedded code paths
  perform arithmetic that would distinguish floats from rationals (values
  are only compared, copied and rendered).
* A JSON field that may be absent from a request body is an `Option`;
  `none` is an absent (or `undefined`) field, so the destructuring
  defaults of `server.js` become `Option.getD`.
* The SQLite table is a `Store`: a list of rows plus the `AUTOINCREMENT`
  counter.  `CURRENT_TIMESTAMP` is an abstract `Nat` clock passed to each
  operation.
* Handler outcomes are `Store × Except Err FireRow`-style values: the
  store after the operation plus either the produced row or the error
  category the handler responds with (400 validation / 404 not found /
  500 database).
-/

namespace FireMonitoring

/-- Error categories of the HTTP handlers in `server.js`:
`validation` is a 400 response with the given message, `notFound` the
404 response, `database` the 500 `Database error` response. -/
inductive Err where
  | validation : String → Err
  | notFound : Err
  | database : Err
deriving DecidableEq, Repr

/-- One row of the `fires` table created by `initializeDatabase`
(`server.js` lines 70–125).  Field names follow the column names;
`DATETIME` columns are abstract `Nat` instants, `REAL`/`INTEGER` columns
are `ℚ` (JavaScript numbers), `TEXT` columns are `String`. -/
structure FireRow where
  id : Nat
  latitude : ℚ
  longitude : ℚ
  timestamp_detected : Nat
  last_update : Nat
  fire_status : String
  fire_type : String
  fire_intensity : ℚ
  fire_size : ℚ
  confidence : ℚ
  fuel_type : String
  terrain_type : String
  slope : ℚ
  temperature : ℚ
  humidity : ℚ
  wind_speed : ℚ
  wind_direction : ℚ
  wind_type : String
  agency_in_charge : String
  response_level : String
  firefighters : ℚ
  vehicles : ℚ
  aircraft : ℚ
  evacuation_status : String
  district : String
  nearest_village : String
  distance_to_village : ℚ
  risk_to_settlements : String
  reporter_name : String
  reporter_contact : String
deriving DecidableEq, Repr

/-- The persistent `fires` table: the rows plus the `AUTOINCREMENT`
counter for the next `id`. -/
structure Store where
  rows : List FireRow
  nextId : Nat
deriving DecidableEq, Repr

/-- The `fire_status` CHECK-constraint enumeration
(`server.js` line 81). -/
def statusEnum : List String := ["active", "controlled", "threat"]

/-- The `risk_to_settlements` CHECK-constraint enumeration
(`server.js` line 111). -/
def riskEnum : List String := ["low", "medium", "high"]

/-- Request body of `POST /api/fires` (`server.js` lines 557–585): every
field optional; `none` means the property is absent so the destructuring
default applies. -/
structure CreatePayload where
  latitude : Option ℚ := none
  longitude : Option ℚ := none
  fire_status : Option String := none
  fire_type : Option String := none
  fire_intensity : Option ℚ := none
  fire_size : Option ℚ := none
  confidence : Option ℚ := none
  fuel_type : Option String := none
  terrain_type : Option String := none
  slope : Option ℚ := none
  temperature : Option ℚ := none
  humidity : Option ℚ := none
  wind_speed : Option ℚ := none
  wind_direction : Option ℚ := none
  wind_type : Option String := none
  agency_in_charge : Option String := none
  response_level : Option String := none
  firefighters : Option ℚ := none
  vehicles : Option ℚ := none
  aircraft : Option ℚ := none
  evacuation_status : Option String := none
  district : Option String := none
  nearest_village : Option String := none
  distance_to_village : Option ℚ := none
  risk_to_settlements : Option String := none
  reporter_name : Option String := none
  reporter_contact : Option String := none
deriving DecidableEq, Repr

/-- The `distance_to_village` creation default `1.5`, as a normalized
rational literal. -/
def defaultDistance : ℚ := ⟨3, 2, by decide, by decide⟩

/-- JavaScript falsiness of an optional numeric request field: `!x` is
`true` when the property is absent (`undefined`) and also when its value
is the number `0`. -/
def isFalsyNum (x : Option ℚ) : Bool :=
  match x with
  | none => true
  | some q => q == 0

/-- The row INSERTed by `POST /api/fires` for a payload that passed
validation: every omitted optional field takes its destructuring
default, the fresh `AUTOINCREMENT` id is assigned, and both timestamps
are stamped to the current time. -/
def createdRow (s : Store) (now : Nat) (p : CreatePayload) : FireRow :=
  { id := s.nextId
    latitude := p.latitude.getD 0
    longitude := p.longitude.getD 0
    timestamp_detected := now
    last_update := now
    fire_status := p.fire_status.getD "active"
    fire_type := p.fire_type.getD "wildfire"
    fire_intensity := p.fire_intensity.getD 100
    fire_size := p.fire_size.getD 1
    confidence := p.confidence.getD 85
    fuel_type := p.fuel_type.getD "mixed_forest"
    terrain_type := p.terrain_type.getD "mountain"
    slope := p.slope.getD 15
    temperature := p.temperature.getD 30
    humidity := p.humidity.getD 25
    wind_speed := p.wind_speed.getD 10
    wind_direction := p.wind_direction.getD 180
    wind_type := p.wind_type.getD "meltemi"
    agency_in_charge := p.agency_in_charge.getD "Cyprus Fire Service"
    response_level := p.response_level.getD "district"
    firefighters := p.firefighters.getD 20
    vehicles := p.vehicles.getD 5
    aircraft := p.aircraft.getD 1
    evacuation_status := p.evacuation_status.getD "none"
    district := p.district.getD "Unknown"
    nearest_village := p.nearest_village.getD "Unknown"
    distance_to_village := p.distance_to_village.getD defaultDistance
    risk_to_settlements := p.risk_to_settlements.getD "medium"
    reporter_name := p.reporter_name.getD ""
    reporter_contact := p.reporter_contact.getD "" }

/-- Endpoint `POST /api/fires` (`server.js` lines 556–655): destructure with
defaults, validate in source order (required-coordinates check via JS
truthiness, latitude range, longitude range, `fire_status` enumeration,
`risk_to_settlements` enumeration), then INSERT the row with both
timestamps stamped to the current time and return the stored row. -/
def createFire (s : Store) (now : Nat) (p : CreatePayload) :
    Store × Except Err FireRow :=
  if isFalsyNum p.latitude || isFalsyNum p.longitude then
    (s, .error (.validation "Latitude and longitude are required"))
  else if p.latitude.getD 0 < -90 ∨ p.latitude.getD 0 > 90 then
    (s, .error (.validation "Invalid latitude (must be between -90 and 90)"))
  else if p.longitude.getD 0 < -180 ∨ p.longitude.getD 0 > 180 then
    (s, .error (.validation "Invalid longitude (must be between -180 and 180)"))
  else if !(statusEnum.contains (p.fire_status.getD "active")) then
    (s, .error (.validation "Invalid fire_status (must be active, controlled, or threat)"))
  else if !(riskEnum.contains (p.risk_to_settlements.getD "medium")) then
    (s, .error (.validation "Invalid risk_to_settlements (must be low, medium, or high)"))
  else
    ({ rows := s.rows ++ [createdRow s now p], nextId := s.nextId + 1 },
      .ok (createdRow s now p))

/-- Request body of `PATCH /api/fires/:id` (`server.js` lines 708–765).
One `Option` per entry of the handler's `allowedFields` allow-list
(lines 713–720); `otherKeys` are the remaining keys of the JSON body,
which the handler's `Object.keys(updates).forEach` filter skips. -/
structure UpdatePayload where
  fire_status : Option String := none
  fire_type : Option String := none
  fire_intensity : Option ℚ := none
  fire_size : Option ℚ := none
  confidence : Option ℚ := none
  fuel_type : Option String := none
  terrain_type : Option String := none
  slope : Option ℚ := none
  temperature : Option ℚ := none
  humidity : Option ℚ := none
  wind_speed : Option ℚ := none
  wind_direction : Option ℚ := none
  wind_type : Option String := none
  agency_in_charge : Option String := none
  response_level : Option String := none
  firefighters : Option ℚ := none
  vehicles : Option ℚ := none
  aircraft : Option ℚ := none
  evacuation_status : Option String := none
  district : Option String := none
  nearest_village : Option String := none
  distance_to_village : Option ℚ := none
  risk_to_settlements : Option String := none
  otherKeys : List String := []
deriving DecidableEq, Repr

/-- The `updateFields.length === 0` test of the PATCH handler: true when at
least one allow-listed field is present in the body (`otherKeys` never
count). -/
def hasAllowedField (u : UpdatePayload) : Bool :=
  u.fire_status.isSome || u.fire_type.isSome || u.fire_intensity.isSome ||
  u.fire_size.isSome || u.confidence.isSome || u.fuel_type.isSome ||
  u.terrain_type.isSome || u.slope.isSome || u.temperature.isSome ||
  u.humidity.isSome || u.wind_speed.isSome || u.wind_direction.isSome ||
  u.wind_type.isSome || u.agency_in_charge.isSome || u.response_level.isSome ||
  u.firefighters.isSome || u.vehicles.isSome || u.aircraft.isSome ||
  u.evacuation_status.isSome || u.district.isSome || u.nearest_village.isSome ||
  u.distance_to_village.isSome || u.risk_to_settlements.isSome

/-- The per-column effect of the dynamic `UPDATE fires SET k = ?` query:
each allow-listed column present in the body takes its new value, every
other column keeps its previous value. -/
def applyUpdate (u : UpdatePayload) (r : FireRow) : FireRow :=
  { r with
    fire_status := u.fire_status.getD r.fire_status
    fire_type := u.fire_type.getD r.fire_type
    fire_intensity := u.fire_intensity.getD r.fire_intensity
    fire_size := u.fire_size.getD r.fire_size
    confidence := u.confidence.getD r.confidence
    fuel_type := u.fuel_type.getD r.fuel_type
    terrain_type := u.terrain_type.getD r.terrain_type
    slope := u.slope.getD r.slope
    temperature := u.temperature.getD r.temperature
    humidity := u.humidity.getD r.humidity
    wind_speed := u.wind_speed.getD r.wind_speed
    wind_direction := u.wind_direction.getD r.wind_direction
    wind_type := u.wind_type.getD r.wind_type
    agency_in_charge := u.agency_in_charge.getD r.agency_in_charge
    response_level := u.response_level.getD r.response_level
    firefighters := u.firefighters.getD r.firefighters
    vehicles := u.vehicles.getD r.vehicles
    aircraft := u.aircraft.getD r.aircraft
    evacuation_status := u.evacuation_status.getD r.evacuation_status
    district := u.district.getD r.district
    nearest_village := u.nearest_village.getD r.nearest_village
    distance_to_village := u.distance_to_village.getD r.distance_to_village
    risk_to_settlements := u.risk_to_settlements.getD r.risk_to_settlements }

/-- The CHECK constraints of the `fires` table that SQLite evaluates on
every updated row (`server.js` lines 81 and 111). -/
def rowSatisfiesChecks (r : FireRow) : Bool :=
  statusEnum.contains r.fire_status && riskEnum.contains r.risk_to_settlements

/-- Endpoint `PATCH /api/fires/:id` (`server.js` lines 708–765): filter the body
keys by the allow-list; fail 400 if no allow-listed field is present;
run the dynamic UPDATE which also sets `last_update = CURRENT_TIMESTAMP`.
SQLite touches the rows matching `WHERE id = ?`: zero matching rows means
`this.changes === 0` and a 404; a matching row violating a CHECK
constraint makes the statement fail, which the handler reports as the
500 database error (nothing is applied); otherwise the updated row is
stored and returned. -/
def updateFire (s : Store) (now : Nat) (fireId : Nat) (u : UpdatePayload) :
    Store × Except Err FireRow :=
  if !(hasAllowedField u) then
    (s, .error (.validation "No valid fields to update"))
  else
    match s.rows.find? (fun r => r.id == fireId) with
    | none => (s, .error .notFound)
    | some r =>
      let r' := { applyUpdate u r with last_update := now }
      if rowSatisfiesChecks r' then
        ({ s with rows := s.rows.map (fun x => if x.id == fireId then r' else x) },
          .ok r')
      else
        (s, .error .database)

/-- Endpoint `DELETE /api/fires/:id` (`server.js` lines 839–857): remove the rows
with the given id; `this.changes === 0` is the 404. -/
def deleteFire (s : Store) (fireId : Nat) : Store × Except Err Unit :=
  let remaining := s.rows.filter (fun r => !(r.id == fireId))
  if remaining.length == s.rows.length then (s, .error .notFound)
  else ({ s with rows := remaining }, .ok ())

/-- JavaScript string truthiness applied to an optional query parameter:
the value is kept only when present and non-empty. -/
def truthyStr (x : Option String) : Option String :=
  match x with
  | none => none
  | some s => if s.isEmpty then none else some s

/-- The `const statusFilter = fire_status || status` line of the GET handler
(`server.js` line 402): first truthy of the two query parameters. -/
def statusFilterOf (fire_status status : Option String) : Option String :=
  (truthyStr fire_status).or (truthyStr status)

/-- The `ORDER BY timestamp_detected DESC` clause of the GET query, as an insertion
sort by descending detection time. -/
def sortByDetectedDesc (rows : List FireRow) : List FireRow :=
  rows.insertionSort (fun a b => b.timestamp_detected ≤ a.timestamp_detected)

/-- Endpoint `GET /api/fires` (`server.js` lines 400–426): when the combined
status filter is truthy, `SELECT * FROM fires WHERE fire_status = ?`,
else all rows; always ordered by detection time descending.  The handler
has no validation path: every filter string yields a 200 row list. -/
def listFires (s : Store) (fire_status status : Option String) :
    List FireRow :=
  match statusFilterOf fire_status status with
  | some f => (sortByDetectedDesc s.rows).filter (fun r => r.fire_status == f)
  | none => sortByDetectedDesc s.rows

/-- JSON-like values appearing in the GeoJSON `properties` object. -/
inductive JVal where
  | str : String → JVal
  | num : ℚ → JVal
  | obj : List (String × JVal) → JVal

/-- The `geometry` part of a GeoJSON feature. -/
structure Geometry where
  gtype : String
  coordinates : List ℚ
deriving DecidableEq, Repr

/-- A GeoJSON feature as produced by `rowToGeoJSON`; `properties` is the
ordered key/value object literal. -/
structure Feature where
  ftype : String
  geometry : Geometry
  properties : List (String × JVal)

/-- Function `rowToGeoJSON` (`server.js` lines 250–288): point geometry with
`[longitude, latitude]` and the properties object literal, with the
three resource counts nested under `resources_on_site`. -/
def rowToGeoJSON (row : FireRow) : Feature :=
  { ftype := "Feature"
    geometry := { gtype := "Point", coordinates := [row.longitude, row.latitude] }
    properties :=
      [ ("id", .num row.id)
      , ("timestamp_detected", .num row.timestamp_detected)
      , ("last_update", .num row.last_update)
      , ("fire_status", .str row.fire_status)
      , ("fire_type", .str row.fire_type)
      , ("fire_intensity", .num row.fire_intensity)
      , ("fire_size", .num row.fire_size)
      , ("confidence", .num row.confidence)
      , ("fuel_type", .str row.fuel_type)
      , ("terrain_type", .str row.terrain_type)
      , ("slope", .num row.slope)
      , ("temperature", .num row.temperature)
      , ("humidity", .num row.humidity)
      , ("wind_speed", .num row.wind_speed)
      , ("wind_direction", .num row.wind_direction)
      , ("wind_type", .str row.wind_type)
      , ("agency_in_charge", .str row.agency_in_charge)
      , ("response_level", .str row.response_level)
      , ("resources_on_site", .obj
          [ ("firefighters", .num row.firefighters)
          , ("vehicles", .num row.vehicles)
          , ("aircraft", .num row.aircraft) ])
      , ("evacuation_status", .str row.evacuation_status)
      , ("district", .str row.district)
      , ("nearest_village", .str row.nearest_village)
      , ("distance_to_village", .num row.distance_to_village)
      , ("risk_to_settlements", .str row.risk_to_settlements)
      ] }

/-- The non-geometric columns of the `fires` table, in schema order
(`initializeDatabase`, `server.js` lines 70–125): every column except
`latitude` and `longitude`. -/
def nonGeometricColumns : List String :=
  [ "id", "timestamp_detected", "last_update", "fire_status", "fire_type"
  , "fire_intensity", "fire_size", "confidence", "fuel_type", "terrain_type"
  , "slope", "temperature", "humidity", "wind_speed", "wind_direction"
  , "wind_type", "agency_in_charge", "response_level", "firefighters"
  , "vehicles", "aircraft", "evacuation_status", "district", "nearest_village"
  , "distance_to_village", "risk_to_settlements", "reporter_name"
  , "reporter_contact" ]

/-- The three resource-count columns that `rowToGeoJSON` nests under the
`resources_on_site` sub-object. -/
def resourceColumns : List String := ["firefighters", "vehicles", "aircraft"]

/-- The value a row holds for a given column name, as the JSON value
the schema assigns to it.  Used to state which attributes the GeoJSON
properties carry. -/
def rowAttr (row : FireRow) : String → Option JVal
  | "id" => some (.num row.id)
  | "latitude" => some (.num row.latitude)
  | "longitude" => some (.num row.longitude)
  | "timestamp_detected" => some (.num row.timestamp_detected)
  | "last_update" => some (.num row.last_update)
  | "fire_status" => some (.str row.fire_status)
  | "fire_type" => some (.str row.fire_type)
  | "fire_intensity" => some (.num row.fire_intensity)
  | "fire_size" => some (.num row.fire_size)
  | "confidence" => some (.num row.confidence)
  | "fuel_type" => some (.str row.fuel_type)
  | "terrain_type" => some (.str row.terrain_type)
  | "slope" => some (.num row.slope)
  | "temperature" => some (.num row.temperature)
  | "humidity" => some (.num row.humidity)
  | "wind_speed" => some (.num row.wind_speed)
  | "wind_direction" => some (.num row.wind_direction)
  | "wind_type" => some (.str row.wind_type)
  | "agency_in_charge" => some (.str row.agency_in_charge)
  | "response_level" => some (.str row.response_level)
  | "firefighters" => some (.num row.firefighters)
  | "vehicles" => some (.num row.vehicles)
  | "aircraft" => some (.num row.aircraft)
  | "evacuation_status" => some (.str row.evacuation_status)
  | "district" => some (.str row.district)
  | "nearest_village" => some (.str row.nearest_village)
  | "distance_to_village" => some (.num row.distance_to_village)
  | "risk_to_settlements" => some (.str row.risk_to_settlements)
  | "reporter_name" => some (.str row.reporter_name)
  | "reporter_contact" => some (.str row.reporter_contact)
  | _ => none

/-- Result resolved by `sendTelegramNotification` on success
(`telegramService.js` lines 67–72). -/
structure TgResult where
  messageId : Nat
deriving DecidableEq, Repr

/-- Result returned by `sendWhatsAppNotification` on success
(WhatsApp service, `return` at the end of the try block). -/
structure WaResult where
  messageId : String
  timestamp : Nat
deriving DecidableEq, Repr

/-- Aggregated `results` object of `POST /api/notifications/send` in the
two-channel server variant: a per-channel result (null when the channel
was not configured or failed) and the pushed `{service, error}` list. -/
structure DispatchResults where
  telegram : Option TgResult
  whatsapp : Option WaResult
  errors : List (String × String)
deriving DecidableEq, Repr

/-- The response of the dispatcher: `success` is the HTTP branch taken
(200 success vs 500 failure), `results` the aggregated detail. -/
structure DispatchResponse where
  success : Bool
  results : DispatchResults
deriving DecidableEq, Repr

/-- Endpoint `POST /api/notifications/send`, two-channel variant (legacy server,
lines 1526–1630).  Each channel argument is `none` when the channel is
not configured (its environment credentials are absent), otherwise the
outcome of awaiting its send inside the per-channel try/catch: a thrown
error is caught and pushed as a `{service, error}` entry, a resolved
result is stored in `results`; the response is the 200 success branch
exactly when `results.telegram || results.whatsapp` is truthy. -/
def dispatchNotification (tg : Option (Except String TgResult))
    (wa : Option (Except String WaResult)) : DispatchResponse :=
  let tgRes : Option TgResult :=
    match tg with
    | some (.ok r) => some r
    | _ => none
  let tgErrs : List (String × String) :=
    match tg with
    | some (.error e) => [("telegram", e)]
    | _ => []
  let waRes : Option WaResult :=
    match wa with
    | some (.ok r) => some r
    | _ => none
  let waErrs : List (String × String) :=
    match wa with
    | some (.error e) => [("whatsapp", e)]
    | _ => []
  { success := tgRes.isSome || waRes.isSome
    results := { telegram := tgRes, whatsapp := waRes, errors := tgErrs ++ waErrs } }

/-- Endpoint `POST /api/notifications/send` in `server.js` (lines 866–940): same
dispatcher with Telegram as the only channel. -/
def dispatchNotificationSingle (tg : Option (Except String TgResult)) :
    Option TgResult × List (String × String) × Bool :=
  let tgRes : Option TgResult :=
    match tg with
    | some (.ok r) => some r
    | _ => none
  let tgErrs : List (String × String) :=
    match tg with
    | some (.error e) => [("telegram", e)]
    | _ => []
  (tgRes, tgErrs, tgRes.isSome)

/-- The process-wide WhatsApp session globals of the service module:
whether `whatsappClient` is non-null, the `isLoggedIn` flag, whether the
`ready` event has fired for the current session, and whether a pairing
QR code is currently held. -/
structure WaState where
  hasClient : Bool
  isLoggedIn : Bool
  readyFired : Bool
  hasQr : Bool
deriving DecidableEq, Repr

/-- Module-load state: no client, not logged in. -/
def waInit : WaState := ⟨false, false, false, false⟩

/-- Connection-lifecycle events of the session channel client. -/
inductive WaEvent where
  | qrCode
  | authenticated
  | authFailure
  | ready
  | disconnected
deriving DecidableEq, Repr

/-- The event handlers registered by `initializeWhatsAppClient`:
`qr` stores the pairing code; `authenticated` clears it and sets
`isLoggedIn = true`; `auth_failure` and `disconnected` set
`isLoggedIn = false`; `ready` sets `isLoggedIn = true` and completes the
session setup (group binding and channel loading). -/
def waStep (s : WaState) : WaEvent → WaState
  | .qrCode => { s with hasQr := true }
  | .authenticated => { s with isLoggedIn := true, hasQr := false }
  | .authFailure => { s with isLoggedIn := false }
  | .ready => { s with isLoggedIn := true, readyFired := true }
  | .disconnected => { s with isLoggedIn := false }

/-- Function `initializeWhatsAppClient`: creates the client object (idempotent —
an existing client is returned unchanged). -/
def waInitializeClient (s : WaState) : WaState := { s with hasClient := true }

/-- The guard at the top of `sendWhatsAppNotification`:
`if (!whatsappClient) throw ...; if (!isLoggedIn) throw ...`.
Returns the channel-state error thrown before any network call, or
`none` when the send proceeds to destination resolution and the network
call. -/
def waSendGuard (s : WaState) : Option String :=
  if !s.hasClient then
    some "WhatsApp client is not initialized. Please initialize it first."
  else if !s.isLoggedIn then
    some "WhatsApp client is not logged in. Please scan QR code first."
  else none

/-- The spec's `READY` session state: client present, logged in, and the
`ready` event has completed the session setup. -/
def waIsReady (s : WaState) : Bool :=
  s.hasClient && s.isLoggedIn && s.readyFired

/-- Left-pad a digit string with zeros to the given width (used to
render a fixed number of fractional digits). -/
def padZeros (width : Nat) (s : String) : String :=
  String.mk (List.replicate (width - s.length) '0') ++ s

/-- JavaScript `Number.prototype.toFixed(6)`: render with exactly six
fractional digits.  Per the ECMAScript spec the rendered integer is the
`n` minimizing `|n / 10^6 - q|`, the larger `n` on ties — that is
`⌊q·10^6 + 1/2⌋`, computed here by floor division on the reduced
numerator and denominator. -/
def toFixed6 (q : ℚ) : String :=
  let n : Int := Int.fdiv (2 * (q.num * 1000000) + q.den) (2 * q.den)
  let sign := if n < 0 then "-" else ""
  let m := n.natAbs
  sign ++ toString (m / 1000000) ++ "." ++ padZeros 6 (toString (m % 1000000))

/-- The scaled integer used by `toFixed6` is the mathematical rounding
`⌊q·10^6 + 1/2⌋` of the scaled coordinate. -/
theorem toFixed6_scaled_eq_round (q : ℚ) :
    Int.fdiv (2 * (q.num * 1000000) + q.den) (2 * q.den) =
      round (q * 1000000) := by
  have hden : (q.den : ℚ) ≠ 0 := by
    exact_mod_cast q.den_nz
  have hnum : (q.num : ℚ) = q * (q.den : ℚ) := by
    have h := Rat.num_div_den q
    rw [div_eq_iff hden] at h
    exact h
  have hcast : (2 * (q.den : ℤ)) = ((2 * q.den : ℕ) : ℤ) := by push_cast; ring
  rw [round_eq, hcast, Int.fdiv_eq_ediv _ (by positivity),
    ← Rat.floor_intCast_div_natCast]
  congr 1
  push_cast
  field_simp
  rw [hnum]
  ring

/-- Remove every factor `p` from `n` (fuel-bounded), returning the
remaining cofactor and the exponent removed. -/
def stripFactor (p : Nat) : Nat → Nat → Nat × Nat
  | _, 0 => (0, 0)
  | 0, n => (0, n)
  | fuel + 1, n =>
    if n % p == 0 && n > 1 then
      let (c, m) := stripFactor p fuel (n / p)
      (c + 1, m)
    else (0, n)

/-- JavaScript template interpolation of a number (`${lat}`): the exact
shortest decimal rendering, defined for numbers with a finite decimal
expansion (every JavaScript float that prints in positional notation
is of this form); other rationals fall back to fraction notation. -/
def numToString (q : ℚ) : String :=
  let (a, d2) := stripFactor 2 q.den q.den
  let (b, d5) := stripFactor 5 d2 d2
  if d5 == 1 then
    let k := max a b
    let scaled : Int := q.num * ((10 ^ k : Int) / (q.den : Int))
    let sign := if scaled < 0 then "-" else ""
    let m := scaled.natAbs
    if k == 0 then sign ++ toString m
    else sign ++ toString (m / 10 ^ k) ++ "." ++ padZeros k (toString (m % 10 ^ k))
  else toString q.num ++ "/" ++ toString q.den

/-- The Google-Maps link built for a coordinate pair:
`https://www.google.com/maps?q=LAT,LNG` with raw (full-precision)
interpolation of the numbers. -/
def mapsUrl (lat lng : ℚ) : String :=
  "https://www.google.com/maps?q=" ++ numToString lat ++ "," ++ numToString lng

/-- One entry of the evacuation-points block
(`telegramService.js` lines 21–25): sequential number `index + 1`,
both coordinates via `toFixed(6)`, then the map link on its own
indented line. -/
def evacuationEntry (index : Nat) (point : ℚ × ℚ) : String :=
  toString (index + 1) ++ ". " ++ toFixed6 point.1 ++ ", " ++ toFixed6 point.2 ++
    "\n   " ++ mapsUrl point.1 point.2 ++ "\n"

/-- The evacuation block of `sendTelegramNotification`
(`telegramService.js` lines 18–26): empty for an empty list, otherwise
the header followed by the `forEach` accumulation of the entries. -/
def evacuationText (points : List (ℚ × ℚ)) : String :=
  if points.length > 0 then
    points.enum.foldl (fun acc ip => acc ++ evacuationEntry ip.1 ip.2)
      "\n\n📍 Safe Evacuation Points:\n"
  else ""

/-- The origin-location block of `sendTelegramNotification`
(`telegramService.js` lines 29–34): present exactly when a `[lat, lng]`
location was supplied. -/
def locationText (location : Option (ℚ × ℚ)) : String :=
  match location with
  | some (lat, lng) =>
    "\n\n📍 Location: " ++ toFixed6 lat ++ ", " ++ toFixed6 lng ++ "\n" ++
      mapsUrl lat lng
  | none => ""

/-- The `fullMessage` concatenation of `sendTelegramNotification`
(`telegramService.js` line 36): base message, then the location block,
then the evacuation block. -/
def formatTelegramMessage (message : String) (location : Option (ℚ × ℚ))
    (points : List (ℚ × ℚ)) : String :=
  message ++ locationText location ++ evacuationText points

/-! ## Concrete data used by counterexamples and witnesses -/

/-- A concrete stored row (integer-valued coordinates keep every field
kernel-evaluable), with the optional reporter provenance fields set. -/
def sampleRow : FireRow :=
  { id := 1
    latitude := 34
    longitude := 33
    timestamp_detected := 100
    last_update := 100
    fire_status := "active"
    fire_type := "forest"
    fire_intensity := 450
    fire_size := 12
    confidence := 92
    fuel_type := "pine_forest"
    terrain_type := "mountain"
    slope := 28
    temperature := 35
    humidity := 18
    wind_speed := 25
    wind_direction := 270
    wind_type := "meltemi"
    agency_in_charge := "Cyprus Fire Service"
    response_level := "national"
    firefighters := 45
    vehicles := 12
    aircraft := 3
    evacuation_status := "partial"
    district := "Limassol"
    nearest_village := "Troodos"
    distance_to_village := 2
    risk_to_settlements := "high"
    reporter_name := "Maria"
    reporter_contact := "99123456" }

/-- A one-row store holding `sampleRow`. -/
def storeOne : Store := { rows := [sampleRow], nextId := 2 }

/-! ## C8 -/

/-- C8 — For every stored record, the Geo-Encoder output's geometry
coordinates equal exactly `[longitude, latitude]` of the stored record:
the same numeric values with no precision loss, in order inverted
relative to storage order (and the geometry is a `Point`). -/
theorem c8_geometry_coordinates_exact (row : FireRow) :
    (rowToGeoJSON row).geometry.coordinates = [row.longitude, row.latitude] ∧
    (rowToGeoJSON row).geometry.gtype = "Point" :=
  ⟨rfl, rfl⟩

/-! ## C3 -/

/-- C3 counterexample — The claim says the Geo-Encoder's properties
carry *every* non-geometric attribute of the record, but
`reporter_name` (and `reporter_contact`) are non-geometric columns of
the `fires` table and `rowToGeoJSON` drops them: on `sampleRow` the
record's value is `"Maria"` while the encoded properties have no such
key. -/
theorem c3_counterexample :
    "reporter_name" ∈ nonGeometricColumns ∧
    rowAttr sampleRow "reporter_name" = some (.str "Maria") ∧
    (rowToGeoJSON sampleRow).properties.lookup "reporter_name" = none :=
  ⟨by decide, rfl, rfl⟩

/-- C3 amended — For every stored record, the Geo-Encoder's output
carries every non-geometric attribute of the record *except the two
reporter provenance fields* in its properties object, each with the
record's value, and the three resource-count fields are nested under the
single `resources_on_site` sub-object. -/
theorem c3_properties_carry_attributes (row : FireRow) (name : String)
    (hmem : name ∈ nonGeometricColumns)
    (hres : name ∉ resourceColumns)
    (hrep : name ∉ ["reporter_name", "reporter_contact"]) :
    (rowToGeoJSON row).properties.lookup name = rowAttr row name ∧
    (rowToGeoJSON row).properties.lookup "resources_on_site" =
      some (.obj [("firefighters", .num row.firefighters),
                  ("vehicles", .num row.vehicles),
                  ("aircraft", .num row.aircraft)]) := by
  refine ⟨?_, rfl⟩
  fin_cases hmem <;>
    first
      | rfl
      | exact absurd (by decide) hres
      | exact absurd (by decide) hrep

/-- C3 witness — the amended theorem applied to `sampleRow` and the
attribute `fire_status`. -/
theorem c3_properties_carry_attributes_witness :
    (rowToGeoJSON sampleRow).properties.lookup "fire_status" =
      rowAttr sampleRow "fire_status" ∧
    (rowToGeoJSON sampleRow).properties.lookup "resources_on_site" =
      some (.obj [("firefighters", .num sampleRow.firefighters),
                  ("vehicles", .num sampleRow.vehicles),
                  ("aircraft", .num sampleRow.aircraft)]) :=
  c3_properties_carry_attributes sampleRow "fire_status"
    (by decide) (by decide) (by decide)

/-! ## C1 -/

/-- The creation-failure condition exactly as the claim words it:
latitude or longitude *missing*, out of range, or an enumeration field
out of its enumeration. -/
def specCreateRejects (p : CreatePayload) : Prop :=
  p.latitude = none ∨ p.longitude = none ∨
  p.latitude.getD 0 < -90 ∨ p.latitude.getD 0 > 90 ∨
  p.longitude.getD 0 < -180 ∨ p.longitude.getD 0 > 180 ∨
  p.fire_status.getD "active" ∉ statusEnum ∨
  p.risk_to_settlements.getD "medium" ∉ riskEnum

/-- The creation-failure condition of the code: as the claim, except
that the required-fields check uses JavaScript truthiness, so a
*zero* coordinate is rejected like a missing one. -/
def createRejects (p : CreatePayload) : Prop :=
  isFalsyNum p.latitude = true ∨ isFalsyNum p.longitude = true ∨
  p.latitude.getD 0 < -90 ∨ p.latitude.getD 0 > 90 ∨
  p.longitude.getD 0 < -180 ∨ p.longitude.getD 0 > 180 ∨
  p.fire_status.getD "active" ∉ statusEnum ∨
  p.risk_to_settlements.getD "medium" ∉ riskEnum

/-- A creation payload that is valid according to the claim — both
coordinates present and in range (latitude 0 is on the equator) — but
rejected by the code's truthiness check. -/
def zeroLatPayload : CreatePayload :=
  { latitude := some 0, longitude := some 33 }

/-- C1 counterexample — The claim says `create` fails *exactly*
when a coordinate is missing, out of range, or an enumeration is
violated.  The payload `latitude = 0, longitude = 33` satisfies none of
those failure conditions, yet `create` rejects it with the
required-fields `ValidationError`, because `!latitude` is true for the
number 0 in JavaScript. -/
theorem c1_counterexample :
    ¬ specCreateRejects zeroLatPayload ∧
    (createFire storeOne 200 zeroLatPayload).2 =
      .error (.validation "Latitude and longitude are required") ∧
    (createFire storeOne 200 zeroLatPayload).1 = storeOne :=
  ⟨by unfold specCreateRejects; decide, rfl, rfl⟩

/-- C1 amended — For every creation payload, `create` fails with a
`ValidationError` exactly when latitude or longitude is missing *or
zero* (JavaScript falsy), latitude is outside [-90,90], longitude is
outside [-180,180], or `fire_status` / `risk_to_settlements` is not in
its enumeration; in every other case a record is persisted and returned
(timestamps stamped to the current time); on any failure no record is
created and the store is unchanged. -/
theorem c1_create_validation (s : Store) (now : Nat) (p : CreatePayload) :
    ((∃ row, (createFire s now p).2 = .ok row) ↔ ¬ createRejects p) ∧
    (∀ e, (createFire s now p).2 = .error e →
      (∃ msg, e = .validation msg) ∧ (createFire s now p).1 = s) ∧
    (∀ row, (createFire s now p).2 = .ok row →
      (createFire s now p).1 =
        { rows := s.rows ++ [row], nextId := s.nextId + 1 } ∧
      row.timestamp_detected = now ∧ row.last_update = now ∧
      row.id = s.nextId) := by
  unfold createFire createRejects
  split_ifs with h1 h2 h3 h4 h5 <;>
    simp_all [Bool.or_eq_true, not_or, decide_eq_true_eq]
  · intro ha hb
    rcases h1 with h | h
    · exact absurd ha (by simp [h])
    · exact absurd hb (by simp [h])
  · intro ha hb
    rcases h2 with h | h
    · exact absurd ha (not_le.mpr h)
    · exact absurd hb (not_le.mpr h)
  · intro ha hb
    rcases h3 with h | h
    · exact absurd ha (not_le.mpr h)
    · exact absurd hb (not_le.mpr h)
  · exact ⟨rfl, rfl, rfl⟩

/-- C1 witness — the amended theorem applied to a payload rejected
for a missing latitude: the error is a `ValidationError` and the store
is unchanged. -/
theorem c1_create_validation_witness :
    (∃ msg, Err.validation "Latitude and longitude are required" =
      Err.validation msg) ∧
    (createFire storeOne 300 { longitude := some 33 }).1 = storeOne :=
  (c1_create_validation storeOne 300 { longitude := some 33 }).2.1
    (.validation "Latitude and longitude are required") rfl

/-! ## C2 -/

/-- A creation payload with an out-of-enumeration status and otherwise
valid fields. -/
def badStatusCreate : CreatePayload :=
  { latitude := some 34, longitude := some 33,
    fire_status := some "extinguished" }

/-- An update payload carrying only an out-of-enumeration status. -/
def badStatusUpdate : UpdatePayload := { fire_status := some "extinguished" }

/-- C2 counterexample — The claim says the *update* operation also
rejects an out-of-enumeration status with a `ValidationError`, but the
PATCH handler never validates the enumeration in JavaScript: the value
reaches SQLite, the CHECK constraint makes the UPDATE fail, and the
handler reports the 500 database error — not a `ValidationError`. -/
theorem c2_counterexample :
    "extinguished" ∉ statusEnum ∧
    (updateFire storeOne 200 1 badStatusUpdate).2 = .error .database ∧
    (∀ msg, (Err.database : Err) ≠ .validation msg) :=
  ⟨by decide, rfl, fun _ h => by cases h⟩

/-- C2 amended — For every status value outside
{active, controlled, threat}: `create` rejects the write with a
`ValidationError`; `update` also rejects the write entirely — the store
is unchanged, with no partial apply — but reports it as a database
error (the enumeration is enforced only by the SQLite CHECK constraint)
or as not-found/validation depending on the other checks, never
persisting the bad value. -/
theorem c2_out_of_enum_rejected (s : Store) (now : Nat) (fireId : Nat)
    (p : CreatePayload) (u : UpdatePayload) (st : String)
    (hst : st ∉ statusEnum) :
    (p.fire_status = some st →
      (∃ msg, (createFire s now p).2 = .error (.validation msg)) ∧
      (createFire s now p).1 = s) ∧
    (u.fire_status = some st →
      (∃ e, (updateFire s now fireId u).2 = .error e) ∧
      (updateFire s now fireId u).1 = s) := by
  constructor
  · intro hp
    unfold createFire
    split_ifs with h1 h2 h3 h4 h5
    · exact ⟨⟨_, rfl⟩, rfl⟩
    · exact ⟨⟨_, rfl⟩, rfl⟩
    · exact ⟨⟨_, rfl⟩, rfl⟩
    · exact ⟨⟨_, rfl⟩, rfl⟩
    · exact ⟨⟨_, rfl⟩, rfl⟩
    · refine absurd ?_ hst
      simp only [hp, Option.getD_some, Bool.not_eq_true] at h4
      simpa using h4
  · intro hu
    have hfield : hasAllowedField u = true := by
      unfold hasAllowedField
      simp [hu]
    unfold updateFire
    rw [hfield]
    simp only [Bool.not_true, Bool.false_eq_true, if_false]
    cases hfind : s.rows.find? (fun r => r.id == fireId) with
    | none => exact ⟨⟨_, rfl⟩, rfl⟩
    | some r =>
      have hchk :
          rowSatisfiesChecks { applyUpdate u r with last_update := now } = false := by
        unfold rowSatisfiesChecks applyUpdate
        simp [hu, hst]
      simp only [hchk, Bool.false_eq_true, if_false]
      exact ⟨⟨_, rfl⟩, trivial⟩

/-- C2 witness — the amended theorem applied to concrete create and
update requests carrying the legacy status value `extinguished`. -/
theorem c2_out_of_enum_rejected_witness :
    ((∃ msg, (createFire storeOne 50 badStatusCreate).2 =
        .error (.validation msg)) ∧
      (createFire storeOne 50 badStatusCreate).1 = storeOne) ∧
    ((∃ e, (updateFire storeOne 50 1 badStatusUpdate).2 = .error e) ∧
      (updateFire storeOne 50 1 badStatusUpdate).1 = storeOne) :=
  ⟨(c2_out_of_enum_rejected storeOne 50 1 badStatusCreate badStatusUpdate
      "extinguished" (by decide)).1 rfl,
   (c2_out_of_enum_rejected storeOne 50 1 badStatusCreate badStatusUpdate
      "extinguished" (by decide)).2 rfl⟩

/-! ## C7 -/

/-- C7 — For every update invocation: a payload with no allow-listed
field fails with the `ValidationError` "No valid fields to update"
(checked before touching the store, so even for a nonexistent id); a
payload with at least one allow-listed field on a store holding no
record with the given identity (zero rows affected) fails with
`NotFoundError`.  In both cases the store is unchanged. -/
theorem c7_update_error_cases (s : Store) (now : Nat) (fireId : Nat)
    (u : UpdatePayload) :
    (hasAllowedField u = false →
      updateFire s now fireId u =
        (s, .error (.validation "No valid fields to update"))) ∧
    (hasAllowedField u = true →
      s.rows.find? (fun r => r.id == fireId) = none →
      updateFire s now fireId u = (s, .error .notFound)) := by
  constructor
  · intro h
    unfold updateFire
    rw [h]
    rfl
  · intro h hfind
    unfold updateFire
    rw [h, hfind]
    rfl

/-- C7 witness — the theorem applied to an empty payload on the
one-row store, and to a status-only payload on an empty store. -/
theorem c7_update_error_cases_witness :
    updateFire storeOne 77 1 {} =
      (storeOne, .error (.validation "No valid fields to update")) ∧
    updateFire ⟨[], 5⟩ 77 9 { fire_status := some "active" } =
      (⟨[], 5⟩, .error .notFound) :=
  ⟨(c7_update_error_cases storeOne 77 1 {}).1 rfl,
   (c7_update_error_cases ⟨[], 5⟩ 77 9 { fire_status := some "active" }).2
     rfl rfl⟩

/-! ## C6 -/

/-- The PATCH allow-list `allowedFields` (`server.js` lines 713–720). -/
def mutableColumns : List String :=
  [ "fire_status", "fire_type", "fire_intensity", "fire_size", "confidence"
  , "fuel_type", "terrain_type", "slope", "temperature", "humidity"
  , "wind_speed", "wind_direction", "wind_type", "agency_in_charge"
  , "response_level", "firefighters", "vehicles", "aircraft"
  , "evacuation_status", "district", "nearest_village"
  , "distance_to_village", "risk_to_settlements" ]

/-- Every allow-listed column absent from the update payload keeps its
prior value: the frame property of the dynamic UPDATE, one conjunct per
entry of the allow-list. -/
def unchangedAbsentFields (u : UpdatePayload) (old new : FireRow) : Prop :=
  (u.fire_status = none → new.fire_status = old.fire_status) ∧
  (u.fire_type = none → new.fire_type = old.fire_type) ∧
  (u.fire_intensity = none → new.fire_intensity = old.fire_intensity) ∧
  (u.fire_size = none → new.fire_size = old.fire_size) ∧
  (u.confidence = none → new.confidence = old.confidence) ∧
  (u.fuel_type = none → new.fuel_type = old.fuel_type) ∧
  (u.terrain_type = none → new.terrain_type = old.terrain_type) ∧
  (u.slope = none → new.slope = old.slope) ∧
  (u.temperature = none → new.temperature = old.temperature) ∧
  (u.humidity = none → new.humidity = old.humidity) ∧
  (u.wind_speed = none → new.wind_speed = old.wind_speed) ∧
  (u.wind_direction = none → new.wind_direction = old.wind_direction) ∧
  (u.wind_type = none → new.wind_type = old.wind_type) ∧
  (u.agency_in_charge = none → new.agency_in_charge = old.agency_in_charge) ∧
  (u.response_level = none → new.response_level = old.response_level) ∧
  (u.firefighters = none → new.firefighters = old.firefighters) ∧
  (u.vehicles = none → new.vehicles = old.vehicles) ∧
  (u.aircraft = none → new.aircraft = old.aircraft) ∧
  (u.evacuation_status = none → new.evacuation_status = old.evacuation_status) ∧
  (u.district = none → new.district = old.district) ∧
  (u.nearest_village = none → new.nearest_village = old.nearest_village) ∧
  (u.distance_to_village = none →
    new.distance_to_village = old.distance_to_village) ∧
  (u.risk_to_settlements = none →
    new.risk_to_settlements = old.risk_to_settlements)

/-- Auxiliary lemma: `find?` commutes with a map that does not change the predicate's
verdict on any element. -/
theorem find?_map_of_pred_invariant {α : Type} (p : α → Bool) (f : α → α)
    (hf : ∀ a, p (f a) = p a) (l : List α) :
    (l.map f).find? p = (l.find? p).map f := by
  induction l with
  | nil => rfl
  | cons a l ih =>
    cases h : p a with
    | true =>
      rw [List.map_cons, List.find?_cons_of_pos _ (by rw [hf, h]),
        List.find?_cons_of_pos _ h, Option.map_some']
    | false =>
      rw [List.map_cons, List.find?_cons_of_neg _ (by simp [hf, h]),
        List.find?_cons_of_neg _ (by simp [h]), ih]

/-- The observable behavior of `updateFire` does not depend on the
non-allow-listed keys of the payload (they are filtered out before the
query is built). -/
theorem updateFire_ignores_otherKeys (s : Store) (now : Nat) (fireId : Nat)
    (u : UpdatePayload) (ks : List String) :
    updateFire s now fireId { u with otherKeys := ks } =
      updateFire s now fireId u := by
  cases u
  rfl

/-- A mutable column absent from the update payload is unchanged by the
dynamic UPDATE (which touches only the present columns plus
`last_update`). -/
theorem applyUpdate_frame (u : UpdatePayload) (r : FireRow) (now : Nat) :
    unchangedAbsentFields u r { applyUpdate u r with last_update := now } := by
  refine ⟨?_, ?_, ?_, ?_, ?_, ?_, ?_, ?_, ?_, ?_, ?_, ?_, ?_, ?_, ?_, ?_, ?_,
    ?_, ?_, ?_, ?_, ?_, ?_⟩ <;>
    · intro h
      simp [applyUpdate, h]

/-- The predicate `unchangedAbsentFields` holds reflexively (an update that applies
nothing changes nothing). -/
theorem unchangedAbsentFields_rfl (u : UpdatePayload) (r : FireRow) :
    unchangedAbsentFields u r r := by
  refine ⟨?_, ?_, ?_, ?_, ?_, ?_, ?_, ?_, ?_, ?_, ?_, ?_, ?_, ?_, ?_, ?_, ?_,
    ?_, ?_, ?_, ?_, ?_, ?_⟩ <;> exact fun _ => rfl

/-- C6 — For every existing incident identity and every
partial-update payload containing at least one allow-listed field,
update modifies only the allow-listed fields present in the payload
plus `last_update`: identity, latitude, longitude and
`timestamp_detected` keep their prior values, every allow-listed field
not present in the payload keeps its prior value, `last_update` is
advanced to a value ≥ its previous value, all other records are
untouched, and unknown or disallowed keys are ignored silently (the
result does not depend on them, so they cause no error). -/
theorem c6_update_frame (s : Store) (now : Nat) (fireId : Nat)
    (u : UpdatePayload) (row : FireRow)
    (hrow : s.rows.find? (fun r => r.id == fireId) = some row)
    (hfield : hasAllowedField u = true)
    (hclock : row.last_update ≤ now) :
    ∃ row',
      (updateFire s now fireId u).1.rows.find? (fun r => r.id == fireId) =
        some row' ∧
      row'.id = row.id ∧
      row'.latitude = row.latitude ∧
      row'.longitude = row.longitude ∧
      row'.timestamp_detected = row.timestamp_detected ∧
      row.last_update ≤ row'.last_update ∧
      unchangedAbsentFields u row row' ∧
      (∀ r ∈ s.rows, (r.id == fireId) = false →
        r ∈ (updateFire s now fireId u).1.rows) ∧
      (∀ ks, updateFire s now fireId { u with otherKeys := ks } =
        updateFire s now fireId u) := by
  have hpos : (row.id == fireId) = true := by
    simpa using List.find?_some hrow
  have hks : ∀ ks, updateFire s now fireId { u with otherKeys := ks } =
      updateFire s now fireId u :=
    fun ks => updateFire_ignores_otherKeys s now fireId u ks
  cases hchk : rowSatisfiesChecks { applyUpdate u row with last_update := now } with
  | true =>
    have hres : updateFire s now fireId u =
        ({ s with rows := s.rows.map (fun x =>
            if x.id == fireId then { applyUpdate u row with last_update := now }
            else x) },
          .ok { applyUpdate u row with last_update := now }) := by
      unfold updateFire
      rw [hfield, hrow]
      simp only [Bool.not_true, Bool.false_eq_true, if_false, hchk, if_true]
    refine ⟨{ applyUpdate u row with last_update := now }, ?_, rfl, rfl, rfl, rfl,
      hclock, applyUpdate_frame u row now, ?_, hks⟩
    · rw [hres]
      rw [find?_map_of_pred_invariant _ _ ?hf, hrow, Option.map_some', if_pos hpos]
      case hf =>
        intro a
        by_cases ha : (a.id == fireId) = true <;>
          simp [ha, hpos, applyUpdate]
    · intro r hr hrid
      rw [hres]
      exact List.mem_map.mpr ⟨r, hr, if_neg (by simp [hrid])⟩
  | false =>
    have hres : updateFire s now fireId u = (s, .error .database) := by
      unfold updateFire
      rw [hfield, hrow]
      simp only [Bool.not_true, Bool.false_eq_true, if_false, hchk, if_false]
    refine ⟨row, ?_, rfl, rfl, rfl, rfl, le_refl _,
      unchangedAbsentFields_rfl u row, ?_, hks⟩
    · rw [hres]
      exact hrow
    · intro r hr hrid
      rw [hres]
      exact hr

/-- C6 witness — the theorem applied to a status-only update of the
one-row store. -/
theorem c6_update_frame_witness :
    ∃ row',
      (updateFire storeOne 150 1 { fire_status := some "controlled" }).1.rows.find?
        (fun r => r.id == 1) = some row' ∧
      row'.id = sampleRow.id ∧
      row'.latitude = sampleRow.latitude ∧
      row'.longitude = sampleRow.longitude ∧
      row'.timestamp_detected = sampleRow.timestamp_detected ∧
      sampleRow.last_update ≤ row'.last_update ∧
      unchangedAbsentFields { fire_status := some "controlled" } sampleRow row' ∧
      (∀ r ∈ storeOne.rows, (r.id == 1) = false →
        r ∈ (updateFire storeOne 150 1 { fire_status := some "controlled" }).1.rows) ∧
      (∀ ks, updateFire storeOne 150 1
          { fire_status := some "controlled", otherKeys := ks } =
        updateFire storeOne 150 1 { fire_status := some "controlled" }) :=
  c6_update_frame storeOne 150 1 { fire_status := some "controlled" }
    sampleRow rfl rfl (by decide)

/-! ## C4 -/

/-- C4 — For every dispatch invocation and every combination of
per-channel outcomes (`none` = channel not configured, `.error` = the
channel's send threw and was caught): a configured channel's failure is
recorded as its `{channel, error}` entry in the aggregated error list —
and an entry exists only for a configured channel that failed, so
failures never surface except through that list; the overall result is
success exactly when at least one configured channel's send succeeded,
and failure when every configured channel failed or none was configured.
The same holds for the single-channel dispatcher of `server.js`. -/
theorem c4_dispatch_aggregation (tg : Option (Except String TgResult))
    (wa : Option (Except String WaResult)) :
    ((dispatchNotification tg wa).success = true ↔
      (∃ r, tg = some (.ok r)) ∨ (∃ r, wa = some (.ok r))) ∧
    (∀ e, ("telegram", e) ∈ (dispatchNotification tg wa).results.errors ↔
      tg = some (.error e)) ∧
    (∀ e, ("whatsapp", e) ∈ (dispatchNotification tg wa).results.errors ↔
      wa = some (.error e)) ∧
    ((∀ r, tg ≠ some (.ok r)) → (∀ r, wa ≠ some (.ok r)) →
      (dispatchNotification tg wa).success = false) ∧
    ((dispatchNotificationSingle tg).2.2 = true ↔ ∃ r, tg = some (.ok r)) ∧
    (∀ e, ("telegram", e) ∈ (dispatchNotificationSingle tg).2.1 ↔
      tg = some (.error e)) := by
  rcases tg with _ | tgr
  case none =>
    rcases wa with _ | war
    case none =>
      simp [dispatchNotification, dispatchNotificationSingle, eq_comm]
    case some =>
      rcases war with e | r <;>
        simp [dispatchNotification, dispatchNotificationSingle, eq_comm]
  case some =>
    rcases tgr with e | r
    case error =>
      rcases wa with _ | war
      case none =>
        simp [dispatchNotification, dispatchNotificationSingle, eq_comm]
      case some =>
        rcases war with e' | r' <;>
          simp [dispatchNotification, dispatchNotificationSingle, eq_comm]
    case ok =>
      rcases wa with _ | war
      case none =>
        simp [dispatchNotification, dispatchNotificationSingle, eq_comm]
      case some =>
        rcases war with e' | r' <;>
          simp [dispatchNotification, dispatchNotificationSingle, eq_comm]

/-- C4 witness — the theorem applied to a dispatch where Telegram
is configured and fails while WhatsApp is not configured: the overall
result is a failure. -/
theorem c4_dispatch_aggregation_witness :
    (dispatchNotification (some (.error "api down")) none).success = false :=
  (c4_dispatch_aggregation (some (.error "api down")) none).2.2.2.1
    (fun r h => by cases h) (fun r h => by cases h)

/-! ## C5 -/

/-- The session state reached by initializing the client and receiving
the `authenticated` event (but not yet the `ready` event). -/
def waAuthState : WaState := waStep (waInitializeClient waInit) .authenticated

/-- C5 counterexample — The claim says a send attempted outside the
`READY` state fails with a channel-state error before any network call.
But the guard of `sendWhatsAppNotification` checks only that the client
exists and `isLoggedIn`, and `isLoggedIn` is already set by the
`authenticated` event handler, before `ready` fires: in the reachable
authenticated-but-not-ready state the guard passes (`none`) and the send
proceeds toward the network call. -/
theorem c5_counterexample :
    waIsReady waAuthState = false ∧ waSendGuard waAuthState = none := by
  exact ⟨rfl, rfl⟩

/-- C5 amended — A send attempted while the client is uninitialized
or not logged in — in particular in the initial state, after an
`auth_failure`, or after a `disconnected` event — fails with a
channel-state error before any network call; the guard passes exactly
when the client exists and is logged in, which the `READY` state
implies but which the `authenticated` event already establishes. -/
theorem c5_send_guard (s : WaState) :
    ((waSendGuard s).isSome = true ↔ ¬(s.hasClient = true ∧ s.isLoggedIn = true)) ∧
    (waIsReady s = true → waSendGuard s = none) ∧
    (waSendGuard (waStep s .disconnected)).isSome = true ∧
    (waSendGuard (waStep s .authFailure)).isSome = true ∧
    (waSendGuard waInit).isSome = true := by
  rcases s with ⟨_ | _, _ | _, _ | _, _ | _⟩ <;> decide

/-- C5 witness — the amended theorem applied to the fully ready
state: the guard lets the send proceed. -/
theorem c5_send_guard_witness :
    waSendGuard (waStep (waStep (waInitializeClient waInit) .authenticated)
      .ready) = none :=
  (c5_send_guard (waStep (waStep (waInitializeClient waInit) .authenticated)
      .ready)).2.1 rfl

/-! ## C9 -/

/-- The origin block as the spec words it: present exactly when a
single location was supplied, coordinates to six decimal places plus a
map-link URL. -/
def specOriginBlock (location : Option (ℚ × ℚ)) : String :=
  match location with
  | some (lat, lng) =>
    "\n\n📍 Location: " ++ toFixed6 lat ++ ", " ++ toFixed6 lng ++ "\n" ++
      mapsUrl lat lng
  | none => ""

/-- One evacuation entry as the spec words it: its sequential number,
the point to six decimal places, and its own map-link URL. -/
def specEvacEntry (n : Nat) (point : ℚ × ℚ) : String :=
  toString n ++ ". " ++ toFixed6 point.1 ++ ", " ++ toFixed6 point.2 ++
    "\n   " ++ mapsUrl point.1 point.2 ++ "\n"

/-- The evacuation block as the spec words it: present exactly when at
least one point was supplied; the points in input order, numbered
sequentially from 1. -/
def specEvacBlock (points : List (ℚ × ℚ)) : String :=
  if points = [] then ""
  else
    "\n\n📍 Safe Evacuation Points:\n" ++
      String.join (points.enum.map (fun ip => specEvacEntry (ip.1 + 1) ip.2))

/-- Shifting the initial accumulator of a string-append fold out of the
fold. -/
theorem foldl_append_shift (l : List String) (x y : String) :
    l.foldl (· ++ ·) (x ++ y) = x ++ l.foldl (· ++ ·) y := by
  induction l generalizing y with
  | nil => rfl
  | cons a l ih => simp only [List.foldl_cons, String.append_assoc, ih]

/-- The function `String.join` distributes over `cons`. -/
theorem join_cons (s : String) (l : List String) :
    String.join (s :: l) = s ++ String.join l := by
  show l.foldl (· ++ ·) ("" ++ s) = s ++ l.foldl (· ++ ·) ""
  rw [String.empty_append, ← String.append_empty s, foldl_append_shift,
    String.append_empty]

/-- A `forEach`-style string accumulation is the initial string followed
by the join of the rendered elements. -/
theorem foldl_append_eq_join {α : Type} (f : α → String) (init : String)
    (l : List α) :
    l.foldl (fun acc x => acc ++ f x) init = init ++ String.join (l.map f) := by
  induction l generalizing init with
  | nil => simp [String.join]
  | cons a l ih =>
    rw [List.foldl_cons, ih, List.map_cons, join_cons, String.append_assoc]

/-- The `forEach` accumulation of `sendTelegramNotification` renders
exactly the spec's numbered evacuation block. -/
theorem evacuationText_eq_specEvacBlock (points : List (ℚ × ℚ)) :
    evacuationText points = specEvacBlock points := by
  cases points with
  | nil => rfl
  | cons p ps =>
    unfold evacuationText specEvacBlock
    rw [if_pos (by simp), if_neg (by simp), foldl_append_eq_join]
    rfl

/-- Scenario coordinates from the spec, as normalized rationals:
origin (34.6857, 33.0437), evacuation points (34.67, 33.05) and
(34.65, 32.99). -/
def scnLat : ℚ := ⟨346857, 10000, by decide, by decide⟩

/-- Scenario origin longitude 33.0437. -/
def scnLng : ℚ := ⟨330437, 10000, by decide, by decide⟩

/-- Scenario first evacuation point latitude 34.67. -/
def scnP1lat : ℚ := ⟨3467, 100, by decide, by decide⟩

/-- Scenario first evacuation point longitude 33.05. -/
def scnP1lng : ℚ := ⟨661, 20, by decide, by decide⟩

/-- Scenario second evacuation point latitude 34.65. -/
def scnP2lat : ℚ := ⟨693, 20, by decide, by decide⟩

/-- Scenario second evacuation point longitude 32.99. -/
def scnP2lng : ℚ := ⟨3299, 100, by decide, by decide⟩

set_option maxRecDepth 10000 in
/-- C9 — For every base message, optional single origin location and
ordered list of evacuation points, the formatted notification text is
exactly the concatenation, in fixed order, of the base message, then an
origin block (present iff a location was supplied, coordinates to six
decimal places with a map-link URL), then an evacuation block (present
iff at least one point was supplied) listing the points in input order,
numbered sequentially from 1, each to six decimal places with its own
map-link URL.  The spec's concrete scenario — message "Evacuate now",
origin (34.6857, 33.0437), points [[34.67, 33.05], [34.65, 32.99]] —
renders with the base message, one origin block and two sequentially
numbered entries in input order. -/
theorem c9_formatter_structure (message : String)
    (location : Option (ℚ × ℚ)) (points : List (ℚ × ℚ)) :
    (formatTelegramMessage message location points =
      message ++ specOriginBlock location ++ specEvacBlock points) ∧
    formatTelegramMessage "Evacuate now" (some (scnLat, scnLng))
        [(scnP1lat, scnP1lng), (scnP2lat, scnP2lng)] =
      "Evacuate now\n\n📍 Location: 34.685700, 33.043700\nhttps://www.google.com/maps?q=34.6857,33.0437\n\n📍 Safe Evacuation Points:\n1. 34.670000, 33.050000\n   https://www.google.com/maps?q=34.67,33.05\n2. 34.650000, 32.990000\n   https://www.google.com/maps?q=34.65,32.99\n" := by
  constructor
  · unfold formatTelegramMessage
    rw [evacuationText_eq_specEvacBlock]
    rfl
  · decide

/-! ## C10 -/

/-- C10 counterexample — The claim says the list operation returns
exactly the stored records whose status equals the supplied filter
string, for *every* filter string.  For the empty filter string the
handler's `if (statusFilter)` truthiness check treats the filter as
absent and returns every record: `sampleRow` is returned although its
status `active` is not the empty string. -/
theorem c10_counterexample :
    sampleRow ∈ listFires storeOne (some "") none ∧
    sampleRow.fire_status ≠ "" := by
  constructor
  · decide
  · decide

/-- C10 amended — For every *non-empty* status-filter string,
including strings outside the status enumeration, list never fails: it
returns exactly the stored records whose `fire_status` equals the
filter, hence the empty collection for an out-of-enum filter whenever
every stored record's status is within the enumeration.  The empty
filter string is treated as no filter (JavaScript falsiness) and
returns all records. -/
theorem c10_list_filter (s : Store) (f : String) (r : FireRow) :
    (f ≠ "" →
      (r ∈ listFires s (some f) none ↔ r ∈ s.rows ∧ r.fire_status = f)) ∧
    (listFires s (some "") none = sortByDetectedDesc s.rows) ∧
    ((∀ x ∈ s.rows, x.fire_status ∈ statusEnum) → f ∉ statusEnum →
      f ≠ "" → listFires s (some f) none = []) := by
  have hfilter : ∀ g : String, g ≠ "" →
      listFires s (some g) none =
        (sortByDetectedDesc s.rows).filter (fun x => x.fire_status == g) := by
    intro g hg
    have hemp : g.isEmpty = false := by
      rw [Bool.eq_false_iff]
      intro h
      exact hg ((String.isEmpty_iff g).mp h)
    have hsf : statusFilterOf (some g) none = some g := by
      simp [statusFilterOf, truthyStr, hemp]
    unfold listFires
    rw [hsf]
  refine ⟨?_, rfl, ?_⟩
  · intro hf
    rw [hfilter f hf, List.mem_filter, sortByDetectedDesc,
      List.mem_insertionSort, beq_iff_eq]
  · intro hall hout hf
    rw [hfilter f hf, List.filter_eq_nil_iff]
    intro a ha
    have hmem : a ∈ s.rows := by
      rw [sortByDetectedDesc] at ha
      exact (List.mem_insertionSort _).mp ha
    simp only [beq_iff_eq, Bool.not_eq_true, decide_eq_true_eq]
    intro heq
    exact hout (heq ▸ hall a hmem)

/-- C10 witness — the amended theorem applied to the one-row store
with the in-enumeration filter `controlled`. -/
theorem c10_list_filter_witness :
    sampleRow ∈ listFires storeOne (some "controlled") none ↔
      sampleRow ∈ storeOne.rows ∧ sampleRow.fire_status = "controlled" :=
  (c10_list_filter storeOne "controlled" sampleRow).1 (by decide)

end FireMonitoring
